import Mathlib

/-!
Verification of the UCP MCP server's checkout-session orchestrator.

The source is a Python client (`ucp_client.py`), a pydantic data model
(`models.py`) and an MCP tool layer (`server.py`).  We embed the parts the
claims are about as pure Lean functions:

* a small JSON value type standing for the dynamic dicts the client builds;
* the pydantic decoders for `LineItem`, `CheckoutTotals`, `OrderInfo` and
  `CheckoutSession`, including their defaults;
* the merged-update payload builder from `update_checkout`;
* the three-phase fulfillment negotiation from `setup_fulfillment`,
  parameterised by the server's responses;
* the header dictionaries each HTTP helper attaches to its request.

Network effects are represented by an `HttpOutcome` describing how a single
HTTP call ended (connect failure, non-2xx status, body-parse failure, or a
parsed 2xx JSON body), and exception flow by explicit result types.
-/

/-- JSON values, standing for the Python dicts/lists the client manipulates.
Objects are association lists in insertion order. -/
inductive Json where
  | null : Json
  | bool (b : Bool) : Json
  | num (n : Int) : Json
  | str (s : String) : Json
  | arr (elems : List Json) : Json
  | obj (fields : List (String × Json)) : Json

/-- First-match key lookup in an object's field list (Python dict lookup;
the dicts the server returns have unique keys). -/
def lookupField : List (String × Json) → String → Option Json
  | [], _ => none
  | (k, v) :: rest, key => if k = key then some v else lookupField rest key

/-- Python truthiness of a JSON value (`if x:`). -/
def Json.truthy : Json → Bool
  | .null => false
  | .bool b => b
  | .num n => n != 0
  | .str s => s != ""
  | .arr xs => !xs.isEmpty
  | .obj fs => !fs.isEmpty

/-- Exceptions Python raises on malformed dynamic access. -/
inductive PyErr where
  | keyError : PyErr
  | indexError : PyErr
  | attributeError : PyErr
  | typeError : PyErr

/-- Model of `d.get(k, default)`: defaulting key lookup on a dict; calling
`.get` on a non-dict raises `AttributeError`. -/
def pyGet (j : Json) (k : String) (d : Json) : Except PyErr Json :=
  match j with
  | .obj fs => .ok ((lookupField fs k).getD d)
  | _ => .error .attributeError

/-- Model of `d[k]`: key subscription, `KeyError` when the key is absent,
`TypeError` when the value is not a dict. -/
def pyIndex (j : Json) (k : String) : Except PyErr Json :=
  match j with
  | .obj fs =>
    match lookupField fs k with
    | some v => .ok v
    | none => .error .keyError
  | _ => .error .typeError

/-- Model of `xs[0]`: first element of a JSON array, `IndexError` when
empty, an error when the value is not an array. -/
def pyIdx0 (j : Json) : Except PyErr Json :=
  match j with
  | .arr (x :: _) => .ok x
  | .arr [] => .error .indexError
  | _ => .error .typeError

/-- Outcome of one HTTP call as the client observes it: connection failure,
non-2xx status (`raise_for_status`), a 2xx whose body is not JSON, or a
parsed 2xx JSON body. -/
inductive HttpOutcome where
  | connectError (msg : String) : HttpOutcome
  | statusError (status : Nat) (body : String) : HttpOutcome
  | parseError (msg : String) : HttpOutcome
  | success (body : Json) : HttpOutcome

/-- Default payment block `update_checkout` supplies when the snapshot has
none: `\x7b"instruments": [], "handlers": []\x7d`. -/
def paymentDefault : Json :=
  .obj [("instruments", .arr []), ("handlers", .arr [])]

/-- The merged PUT body `update_checkout` builds, as a record: each field is
one key of the Python payload dict, `none` meaning the key is omitted. -/
structure UpdatePayload where
  id : String
  line_items : Option Json
  currency : Json
  payment : Json
  discounts : Option (List String)

/-- Discounts key of the merged payload: present only when the caller's
`discount_codes` is truthy (`if discount_codes:`). -/
def discountsField (discount_codes : Option (List String)) : Option (List String) :=
  match discount_codes with
  | some cs => if cs.isEmpty then none else some cs
  | none => none

/-- Payload construction of `update_checkout` (ucp_client.py lines 344-356):
start from `\x7b"id": checkout_id\x7d`, carry the snapshot's `line_items` forward
when truthy, let caller-supplied truthy `line_items` override, take
`currency` and `payment` from the snapshot with defaults, and attach
`discounts` only when discount codes are truthy.  Fails like Python when
`current` is not a dict. -/
def build_update_payload (checkout_id : String) (current : Json)
    (line_items : Option (List Json)) (discount_codes : Option (List String)) :
    Except PyErr UpdatePayload := do
  let snapLi ← pyGet current "line_items" .null
  let carried : Option Json := if snapLi.truthy then some snapLi else none
  let chosen : Option Json :=
    match line_items with
    | some lis => if lis.isEmpty then carried else some (.arr lis)
    | none => carried
  let currency ← pyGet current "currency" (.str "USD")
  let payment ← pyGet current "payment" paymentDefault
  pure ⟨checkout_id, chosen, currency, payment, discountsField discount_codes⟩

theorem exc_bind_ok {ε α β : Type} (a : α) (f : α → Except ε β) :
    ((Except.ok a : Except ε α) >>= f) = f a := rfl

theorem exc_pure_eq {ε α : Type} (a : α) :
    (pure a : Except ε α) = Except.ok a := rfl

theorem exc_bind_err {ε α β : Type} (e : ε) (f : α → Except ε β) :
    ((Except.error e : Except ε α) >>= f) = Except.error e := rfl

theorem truthy_arr_cons (x : Json) (xs : List Json) :
    (Json.arr (x :: xs)).truthy = true := rfl

/-! ## Pydantic models (models.py) and their validation

Each model becomes a structure plus a decoder from `Json` returning
`Option`: `none` models a pydantic `ValidationError`.  Decoders follow
pydantic defaults: an absent field takes the declared default, a present
field must have the declared type (explicit `null` is only accepted for
`T | None` fields), extra keys are ignored. -/

/-- A totals entry: `CheckoutTotals` with required `type` and `amount`. -/
structure CheckoutTotals where
  type : String
  amount : Int

/-- One checkout line: `LineItem` with optional `id`, required dict `item`,
required int `quantity` (no positivity constraint in the source), and
`totals` defaulting to `[]`. -/
structure LineItem where
  id : Option String
  item : List (String × Json)
  quantity : Int
  totals : List (List (String × Json))

/-- Post-completion order info with two optional string fields. -/
structure OrderInfo where
  id : Option String
  permalink_url : Option String

/-- A decoded `CheckoutSession` snapshot. -/
structure CheckoutSession where
  id : String
  status : String
  currency : String
  line_items : List LineItem
  totals : List CheckoutTotals
  discounts : List (String × Json)
  order : Option OrderInfo

/-- Decode a required string field. -/
def decodeStr (fs : List (String × Json)) (k : String) : Option String :=
  match lookupField fs k with
  | some (.str s) => some s
  | _ => none

/-- Decode a `str | None = None` field: absent or `null` gives `none`. -/
def decodeOptStr (fs : List (String × Json)) (k : String) : Option (Option String) :=
  match lookupField fs k with
  | none => some none
  | some .null => some none
  | some (.str s) => some (some s)
  | some _ => none

/-- Decode a required int field. -/
def decodeInt (fs : List (String × Json)) (k : String) : Option Int :=
  match lookupField fs k with
  | some (.num n) => some n
  | _ => none

/-- Decode a JSON value that must be a dict. -/
def decodeDict : Json → Option (List (String × Json))
  | .obj fs => some fs
  | _ => none

/-- Decoder for `CheckoutTotals`. -/
def CheckoutTotals.decode (j : Json) : Option CheckoutTotals := do
  let fs ← decodeDict j
  let ty ← decodeStr fs "type"
  let amount ← decodeInt fs "amount"
  pure ⟨ty, amount⟩

/-- Decoder for `LineItem`: `quantity` is any integer, as in the source. -/
def LineItem.decode (j : Json) : Option LineItem := do
  let fs ← decodeDict j
  let lid ← decodeOptStr fs "id"
  let itemJ ← lookupField fs "item"
  let item ← decodeDict itemJ
  let q ← decodeInt fs "quantity"
  let totals ←
    match lookupField fs "totals" with
    | none => some []
    | some (.arr xs) => xs.mapM decodeDict
    | some _ => none
  pure ⟨lid, item, q, totals⟩

/-- Decoder for `OrderInfo`. -/
def OrderInfo.decode (j : Json) : Option OrderInfo := do
  let fs ← decodeDict j
  let oid ← decodeOptStr fs "id"
  let purl ← decodeOptStr fs "permalink_url"
  pure ⟨oid, purl⟩

/-- Decoder for `CheckoutSession`, with the source's defaults: `currency`
defaults to `"USD"`, `line_items`/`totals`/`discounts` default to empty,
`order` defaults to `none`. -/
def CheckoutSession.decode (j : Json) : Option CheckoutSession := do
  let fs ← decodeDict j
  let sid ← decodeStr fs "id"
  let status ← decodeStr fs "status"
  let currency ←
    match lookupField fs "currency" with
    | none => some "USD"
    | some (.str s) => some s
    | some _ => none
  let lineItems ←
    match lookupField fs "line_items" with
    | none => some []
    | some (.arr xs) => xs.mapM LineItem.decode
    | some _ => none
  let totals ←
    match lookupField fs "totals" with
    | none => some []
    | some (.arr xs) => xs.mapM CheckoutTotals.decode
    | some _ => none
  let discounts ←
    match lookupField fs "discounts" with
    | none => some []
    | some (.obj dfs) => some dfs
    | some _ => none
  let order ←
    match lookupField fs "order" with
    | none => some none
    | some .null => some none
    | some oj => (OrderInfo.decode oj).map some
  pure ⟨sid, status, currency, lineItems, totals, discounts, order⟩

/-- First-match scan of a totals list for a given type tag, returning the
matching entry's amount and 0 when no entry matches: the loop shared by the
`total`, `subtotal` and `discount_amount` properties of models.py. -/
def totalsLookup (ty : String) : List CheckoutTotals → Int
  | [] => 0
  | t :: rest => if t.type = ty then t.amount else totalsLookup ty rest

/-- Property `total` of `CheckoutSession` (models.py lines 89-95). -/
def CheckoutSession.total (s : CheckoutSession) : Int :=
  totalsLookup "total" s.totals

/-- Property `subtotal` of `CheckoutSession` (models.py lines 97-103). -/
def CheckoutSession.subtotal (s : CheckoutSession) : Int :=
  totalsLookup "subtotal" s.totals

/-- Property `discount_amount` of `CheckoutSession` (models.py lines 105-111). -/
def CheckoutSession.discount_amount (s : CheckoutSession) : Int :=
  totalsLookup "discount" s.totals

/-! ## Client operations (ucp_client.py)

Each operation becomes a pure function of the HTTP outcomes it observes.
`OpResult` records how the Python call ends: a decoded session, a raised
`UCPClientError` carrying its message string, or a non-`UCPClientError`
exception escaping the function (e.g. a pydantic `ValidationError` from
`CheckoutSession(**data)` placed outside the try block). -/

/-- Result of one client operation as the caller observes it. -/
inductive OpResult (α : Type) where
  | ok (a : α) : OpResult α
  | clientError (msg : String) : OpResult α
  | raised : OpResult α

/-- Snapshot `update_checkout` works from: the parsed GET body on success,
the empty dict when the fetch fails in any way (the bare
`except Exception` at ucp_client.py lines 340-342). -/
def update_snapshot (fetch : HttpOutcome) : Json :=
  match fetch with
  | .success j => j
  | _ => .obj []

/-- PUT half of `update_checkout` (ucp_client.py lines 366-379): network,
status and body-parse failures become `UCPClientError` messages; a parsed
2xx body is decoded by `CheckoutSession(**data)` OUTSIDE the try block, so
a validation failure escapes as a raised non-client exception. -/
def put_phase (put : UpdatePayload → HttpOutcome) (p : UpdatePayload) :
    OpResult CheckoutSession :=
  match put p with
  | .connectError m => .clientError ("Could not connect to merchant: " ++ m)
  | .statusError s b =>
    .clientError ("HTTP error from merchant: " ++ toString s ++ " - " ++ b)
  | .parseError m => .clientError ("Error updating checkout: " ++ m)
  | .success j =>
    match CheckoutSession.decode j with
    | some s => .ok s
    | none => .raised

/-- Whole `update_checkout` flow: fetch the current state (failures fall
back to the empty snapshot), build the merged payload, send the PUT and
decode the response.  A payload-construction error (snapshot body not a
dict) escapes uncaught, as in the source where the `.get` calls sit outside
every try block. -/
def update_checkout_run (checkout_id : String) (line_items : Option (List Json))
    (discount_codes : Option (List String)) (fetch : HttpOutcome)
    (put : UpdatePayload → HttpOutcome) : OpResult CheckoutSession :=
  match build_update_payload checkout_id (update_snapshot fetch) line_items discount_codes with
  | .ok p => put_phase put p
  | .error _ => .raised

/-- The `create_checkout` flow after the payload is built (ucp_client.py
lines 116-129): the try block converts connect, status and body-parse
failures into `UCPClientError`; `CheckoutSession(**data)` on line 129 is
outside it, so a 2xx body that fails session decoding raises past the
function. -/
def create_checkout_run (resp : HttpOutcome) : OpResult CheckoutSession :=
  match resp with
  | .connectError m => .clientError ("Could not connect to merchant: " ++ m)
  | .statusError s b =>
    .clientError ("HTTP error from merchant: " ++ toString s ++ " - " ++ b)
  | .parseError m => .clientError ("Error creating checkout: " ++ m)
  | .success j =>
    match CheckoutSession.decode j with
    | some s => .ok s
    | none => .raised

/-! ## Tool boundary (server.py)

A tool either returns a success dict, or catches `UCPClientError` and
returns an error dict; any other exception escapes the tool as a fault. -/

/-- What an MCP tool call yields at the boundary. -/
inductive ToolOutcome where
  | payload (fields : List (String × Json)) : ToolOutcome
  | errorDict (msg : String) : ToolOutcome
  | fault : ToolOutcome

/-- Success dict built by `ucp_checkout_create` (server.py lines 86-100). -/
def create_tool_payload (s : CheckoutSession) : List (String × Json) :=
  [("checkout_id", .str s.id),
   ("status", .str s.status),
   ("total", .num s.total),
   ("subtotal", .num s.subtotal),
   ("currency", .str s.currency),
   ("line_items", .arr (s.line_items.map (fun li =>
     .obj [("id", (lookupField li.item "id").getD .null),
           ("title", (lookupField li.item "title").getD .null),
           ("quantity", .num li.quantity)])))]

/-- The `ucp_checkout_create` tool (server.py lines 53-102): only
`UCPClientError` is caught and turned into an error dict; any other
exception from the client propagates past the tool boundary. -/
def ucp_checkout_create_tool (resp : HttpOutcome) : ToolOutcome :=
  match create_checkout_run resp with
  | .ok s => .payload (create_tool_payload s)
  | .clientError m => .errorDict m
  | .raised => .fault

/-! ## Request headers (ucp_client.py header dicts)

Each operation's request is modelled by its method and header list; the
per-request `str(uuid.uuid4())` draws are passed in as parameters. -/

/-- Method and headers of one HTTP request the client sends. -/
structure RequestMeta where
  method : String
  headers : List (String × String)

/-- Value of the `UCP-Agent` header used by every header dict in the file. -/
def agentProfile : String := "profile=\"https://ucp-mcp-server.example/profile\""

/-- First-match lookup of a header value. -/
def headerLookup : List (String × String) → String → Option String
  | [], _ => none
  | (k, v) :: rest, key => if k = key then some v else headerLookup rest key

/-- The discovery GET (ucp_client.py line 49): `client.get(url)` with no
headers argument at all. -/
def discover_request : RequestMeta := ⟨"GET", []⟩

/-- Headers of the checkout-creation POST (ucp_client.py lines 108-114). -/
def create_checkout_request (idem reqid : String) : RequestMeta :=
  ⟨"POST",
   [("Content-Type", "application/json"),
    ("UCP-Agent", agentProfile),
    ("request-signature", "test"),
    ("idempotency-key", idem),
    ("request-id", reqid)]⟩

/-- Headers of the completion POST (ucp_client.py lines 170-176). -/
def complete_checkout_request (idem reqid : String) : RequestMeta :=
  ⟨"POST",
   [("Content-Type", "application/json"),
    ("UCP-Agent", agentProfile),
    ("request-signature", "test"),
    ("idempotency-key", idem),
    ("request-id", reqid)]⟩

/-- Headers of the state-fetch GET (ucp_client.py lines 201-205). -/
def get_checkout_request (reqid : String) : RequestMeta :=
  ⟨"GET",
   [("UCP-Agent", agentProfile),
    ("request-signature", "test"),
    ("request-id", reqid)]⟩

/-- Headers of the raw-update PUT (ucp_client.py lines 228-234). -/
def raw_update_request (idem reqid : String) : RequestMeta :=
  ⟨"PUT",
   [("Content-Type", "application/json"),
    ("UCP-Agent", agentProfile),
    ("request-signature", "test"),
    ("idempotency-key", idem),
    ("request-id", reqid)]⟩

/-- Headers of the merged-update PUT (ucp_client.py lines 358-364). -/
def update_checkout_put_request (idem reqid : String) : RequestMeta :=
  ⟨"PUT",
   [("Content-Type", "application/json"),
    ("UCP-Agent", agentProfile),
    ("request-signature", "test"),
    ("idempotency-key", idem),
    ("request-id", reqid)]⟩

/-- Every request shape the client can send, one per call site, for a fixed
pair of uuid draws. -/
def client_requests (idem reqid : String) : List RequestMeta :=
  [discover_request,
   create_checkout_request idem reqid,
   complete_checkout_request idem reqid,
   get_checkout_request reqid,
   raw_update_request idem reqid,
   update_checkout_put_request idem reqid]

/-! ## Fulfillment negotiation (ucp_client.py `setup_fulfillment`)

The three-phase negotiation is a pure function of the pre-negotiation
snapshot and the responses the merchant returns to the successive
`raw_update_checkout` PUTs (`resp i` is the parsed body answering the
`i`-th PUT).  Besides the final session it returns the list of PUT bodies
it sent, so the claims can talk about what each phase carried.  The PUT
body dicts are mirrored by records whose fields are the dict keys. -/

/-- One entry of the `groups` list of a fulfillment selection:
`\x7b"selected_option_id": ...\x7d`. -/
structure GroupSel where
  selected_option_id : Json

/-- One entry of the `methods` list of a fulfillment selection: the
`type` key plus the optionally present selection keys. -/
structure MethodSel where
  type : String
  selected_destination_id : Option Json
  groups : Option (List GroupSel)

/-- A PUT body built by `setup_fulfillment`: the keys of the Python dict
`\x7b**base_payload, ...\x7d`, `fulfillment` holding its `methods` list. -/
structure FulfillPayload where
  id : String
  line_items : Json
  currency : Json
  payment : Json
  fulfillment : List MethodSel

/-- The `setup_fulfillment` negotiation (ucp_client.py lines 248-317):
phase 1 requests shipping over the snapshot's base payload; phase 2 picks
the first method's first destination id and carries the phase-1 response's
`line_items`/`payment`; phase 3 picks the first group's first option id and
carries the phase-2 response's `line_items`/`payment`.  Each `if not ...`
guard returns the last obtained response.  Dynamic-access failures
(`KeyError` etc.) surface as `Except.error`, matching Python's uncaught
exceptions. -/
def setup_fulfillment (checkout_id : String) (current : Json)
    (resp : Nat → Json) : Except PyErr (List FulfillPayload × Json) := do
  let li0 ← pyIndex current "line_items"
  let cur0 ← pyIndex current "currency"
  let pay0 ← pyIndex current "payment"
  let p1 : FulfillPayload := ⟨checkout_id, li0, cur0, pay0, [⟨"shipping", none, none⟩]⟩
  let data1 := resp 0
  let ful1 ← pyGet data1 "fulfillment" (.obj [])
  let methods1 ← pyGet ful1 "methods" (.arr [])
  if !methods1.truthy then
    pure ([p1], data1)
  else do
    let method1 ← pyIdx0 methods1
    let dests ← pyGet method1 "destinations" (.arr [])
    if !dests.truthy then
      pure ([p1], data1)
    else do
      let dest0 ← pyIdx0 dests
      let destId ← pyIndex dest0 "id"
      let li1 ← pyIndex data1 "line_items"
      let pay1 ← pyIndex data1 "payment"
      let p2 : FulfillPayload :=
        ⟨checkout_id, li1, cur0, pay1, [⟨"shipping", some destId, none⟩]⟩
      let data2 := resp 1
      let ful2 ← pyGet data2 "fulfillment" (.obj [])
      let methods2 ← pyGet ful2 "methods" (.arr [])
      if !methods2.truthy then
        pure ([p1, p2], data2)
      else do
        let method2 ← pyIdx0 methods2
        let groups ← pyGet method2 "groups" (.arr [])
        if !groups.truthy then
          pure ([p1, p2], data2)
        else do
          let g0 ← pyIdx0 groups
          let opts ← pyGet g0 "options" .null
          if !opts.truthy then
            pure ([p1, p2], data2)
          else do
            let optsV ← pyIndex g0 "options"
            let opt0 ← pyIdx0 optsV
            let optId ← pyIndex opt0 "id"
            let li2 ← pyIndex data2 "line_items"
            let pay2 ← pyIndex data2 "payment"
            let p3 : FulfillPayload :=
              ⟨checkout_id, li2, cur0, pay2,
               [⟨"shipping", some destId, some [⟨optId⟩]⟩]⟩
            pure ([p1, p2, p3], resp 2)

/-! ## Helper lemmas about the totals lookup -/

theorem perm_eq_of_length_le_one {α : Type} {l l' : List α}
    (h : l.Perm l') (hl : l.length ≤ 1) : l = l' := by
  cases l with
  | nil => rw [List.nil_perm] at h; exact h.symm
  | cons a t =>
    cases t with
    | nil => rw [List.singleton_perm] at h; exact h
    | cons b u => simp at hl

theorem totalsLookup_eq_head_filter (ty : String) (ts : List CheckoutTotals) :
    totalsLookup ty ts =
      (((ts.filter (fun t => t.type == ty)).head?).map CheckoutTotals.amount).getD 0 := by
  induction ts with
  | nil => rfl
  | cons t rest ih =>
    by_cases h : t.type = ty <;> simp [totalsLookup, List.filter_cons, h, ih]

theorem totalsLookup_eq_zero (ty : String) (ts : List CheckoutTotals)
    (h : ∀ t ∈ ts, t.type ≠ ty) : totalsLookup ty ts = 0 := by
  induction ts with
  | nil => rfl
  | cons t rest ih =>
    have ht : t.type ≠ ty := h t (by simp)
    simp only [totalsLookup, if_neg ht]
    exact ih (fun u hu => h u (by simp [hu]))

theorem totalsLookup_find (ty : String) (ts : List CheckoutTotals)
    (t : CheckoutTotals) (h : ts.find? (fun u => u.type == ty) = some t) :
    totalsLookup ty ts = t.amount := by
  induction ts with
  | nil => simp [List.find?] at h
  | cons u rest ih =>
    by_cases hu : u.type = ty
    · simp only [List.find?, hu, beq_self_eq_true, Option.some.injEq] at h
      subst h
      simp [totalsLookup, hu]
    · have hb : (u.type == ty) = false := by simp [hu]
      simp only [List.find?, hb] at h
      simp [totalsLookup, hu, ih h]

theorem totalsLookup_perm (ty : String) {ts ts' : List CheckoutTotals}
    (h : ts.Perm ts') (hc : ts.countP (fun t => t.type == ty) ≤ 1) :
    totalsLookup ty ts = totalsLookup ty ts' := by
  rw [totalsLookup_eq_head_filter, totalsLookup_eq_head_filter]
  have hf : ts.filter (fun t => t.type == ty) = ts'.filter (fun t => t.type == ty) :=
    perm_eq_of_length_le_one (h.filter _)
      (by rwa [← List.countP_eq_length_filter])
  rw [hf]

/-! ## Claim theorems -/

/-- C5: for every checkout session, `total` returns 0 when no totals entry
of type `"total"` is present and otherwise returns the amount of the
matching entry; the result does not depend on the ordering of the totals
entries (at most one authoritative entry per type being consulted), and
when several entries share the type the first match wins — and likewise
for `subtotal` and `discount_amount`. -/
theorem session_totals_lookup_spec (s : CheckoutSession) :
    ((∀ t ∈ s.totals, t.type ≠ "total") → s.total = 0)
    ∧ (∀ t, s.totals.find? (fun u => u.type == "total") = some t → s.total = t.amount)
    ∧ (∀ s' : CheckoutSession, s.totals.Perm s'.totals →
        s.totals.countP (fun u => u.type == "total") ≤ 1 → s.total = s'.total)
    ∧ ((∀ t ∈ s.totals, t.type ≠ "subtotal") → s.subtotal = 0)
    ∧ (∀ t, s.totals.find? (fun u => u.type == "subtotal") = some t → s.subtotal = t.amount)
    ∧ (∀ s' : CheckoutSession, s.totals.Perm s'.totals →
        s.totals.countP (fun u => u.type == "subtotal") ≤ 1 → s.subtotal = s'.subtotal)
    ∧ ((∀ t ∈ s.totals, t.type ≠ "discount") → s.discount_amount = 0)
    ∧ (∀ t, s.totals.find? (fun u => u.type == "discount") = some t →
        s.discount_amount = t.amount)
    ∧ (∀ s' : CheckoutSession, s.totals.Perm s'.totals →
        s.totals.countP (fun u => u.type == "discount") ≤ 1 →
        s.discount_amount = s'.discount_amount) :=
  ⟨totalsLookup_eq_zero "total" s.totals,
   fun t h => totalsLookup_find "total" s.totals t h,
   fun _ hp hc => totalsLookup_perm "total" hp hc,
   totalsLookup_eq_zero "subtotal" s.totals,
   fun t h => totalsLookup_find "subtotal" s.totals t h,
   fun _ hp hc => totalsLookup_perm "subtotal" hp hc,
   totalsLookup_eq_zero "discount" s.totals,
   fun t h => totalsLookup_find "discount" s.totals t h,
   fun _ hp hc => totalsLookup_perm "discount" hp hc⟩

/-- Concrete evaluation of the C5 lookup properties: a session whose totals
list carries subtotal and total entries, the total taken by first match,
the empty case giving 0, and order independence across a swap. -/
theorem session_totals_lookup_spec_witness :
    (⟨"s1", "open", "USD", [], [⟨"subtotal", 3500⟩, ⟨"total", 3150⟩], [], none⟩ :
      CheckoutSession).total = 3150
    ∧ (⟨"s2", "open", "USD", [], [⟨"subtotal", 3500⟩], [], none⟩ :
      CheckoutSession).total = 0
    ∧ (⟨"s1", "open", "USD", [], [⟨"subtotal", 3500⟩, ⟨"total", 3150⟩], [], none⟩ :
      CheckoutSession).total =
      (⟨"s3", "open", "USD", [], [⟨"total", 3150⟩, ⟨"subtotal", 3500⟩], [], none⟩ :
      CheckoutSession).total :=
  ⟨(session_totals_lookup_spec _).2.1 ⟨"total", 3150⟩ rfl,
   (session_totals_lookup_spec _).1 (by decide),
   (session_totals_lookup_spec _).2.2.1
     ⟨"s3", "open", "USD", [], [⟨"total", 3150⟩, ⟨"subtotal", 3500⟩], [], none⟩
     (List.Perm.swap _ _ _) (by decide)⟩

/-- C9 fails on the code: `LineItem.quantity` is a plain `int` with no
constraint, so a line item with quantity 0 decodes successfully. -/
theorem lineitem_quantity_positive_cex :
    ¬ (∀ (j : Json) (li : LineItem), LineItem.decode j = some li →
        1 ≤ li.quantity) := by
  intro h
  have h0 := h (.obj [("item", .obj []), ("quantity", .num 0)]) ⟨none, [], 0, []⟩ rfl
  exact absurd h0 (by decide)

/-- C9 amended: `LineItem.quantity` is decoded as a plain integer with no
positivity constraint — every integer quantity, zero and negatives
included, yields a representable line item and a representable session. -/
theorem lineitem_any_int_quantity_representable (q : Int) :
    LineItem.decode (.obj [("item", .obj []), ("quantity", .num q)]) =
      some ⟨none, [], q, []⟩
    ∧ CheckoutSession.decode (.obj [("id", .str "s1"), ("status", .str "open"),
        ("line_items", .arr [.obj [("item", .obj []), ("quantity", .num q)]])]) =
      some ⟨"s1", "open", "USD", [⟨none, [], q, []⟩], [], [], none⟩ :=
  ⟨rfl, rfl⟩

/-- C6: at the failing input — a 2xx response to the checkout-creation POST
whose JSON body is the empty object — `CheckoutSession(**data)` sits
outside the client's try block, so the validation failure is not converted
into the client error kind, and the tool layer, which catches only
`UCPClientError`, lets the fault escape the tool boundary. -/
theorem create_decode_failure_escapes_tool :
    create_checkout_run (.success (.obj [])) = .raised
    ∧ ucp_checkout_create_tool (.success (.obj [])) = .fault :=
  ⟨rfl, rfl⟩

/-- C10: updating with an empty discount-code list builds exactly the same
merged payload as updating with no discount codes at all, and in both cases
the discounts key is omitted, so an empty list cannot clear applied
discounts. -/
theorem update_empty_discount_list_is_no_discounts
    (cid : String) (current : Json) (li : Option (List Json)) :
    build_update_payload cid current li (some []) =
      build_update_payload cid current li none
    ∧ (∀ p, build_update_payload cid current li none = .ok p →
        p.discounts = none) := by
  constructor
  · rfl
  · intro p hp
    cases current with
    | obj fs =>
      simp only [build_update_payload, pyGet, exc_bind_ok, exc_pure_eq,
        Except.ok.injEq] at hp
      rw [← hp]
      rfl
    | null =>
      simp only [build_update_payload, pyGet, exc_bind_err] at hp
      exact Except.noConfusion hp
    | bool b =>
      simp only [build_update_payload, pyGet, exc_bind_err] at hp
      exact Except.noConfusion hp
    | num n =>
      simp only [build_update_payload, pyGet, exc_bind_err] at hp
      exact Except.noConfusion hp
    | str s =>
      simp only [build_update_payload, pyGet, exc_bind_err] at hp
      exact Except.noConfusion hp
    | arr xs =>
      simp only [build_update_payload, pyGet, exc_bind_err] at hp
      exact Except.noConfusion hp

/-- Concrete evaluation for C10: with a populated snapshot, the payloads
for an empty list and for no codes coincide and omit discounts. -/
theorem update_empty_discount_list_is_no_discounts_witness :
    build_update_payload "c1"
        (.obj [("line_items", .arr [.num 1]), ("currency", .str "EUR"),
               ("payment", .str "P")]) none (some []) =
      build_update_payload "c1"
        (.obj [("line_items", .arr [.num 1]), ("currency", .str "EUR"),
               ("payment", .str "P")]) none none
    ∧ (⟨"c1", some (.arr [.num 1]), .str "EUR", .str "P", none⟩ :
        UpdatePayload).discounts = none :=
  ⟨(update_empty_discount_list_is_no_discounts "c1" _ none).1,
   (update_empty_discount_list_is_no_discounts "c1"
      (.obj [("line_items", .arr [.num 1]), ("currency", .str "EUR"),
             ("payment", .str "P")]) none).2 _ rfl⟩

/-- C1: when `update_checkout` is invoked with only discount codes and the
fetched snapshot carries line items, a currency and a payment block, the
merged PUT payload keeps all three exactly as fetched, with the discount
codes as its only addition. -/
theorem update_merge_preserves_unsupplied_fields
    (cid : String) (fs : List (String × Json)) (ls : List Json) (c p : Json)
    (dc : List String)
    (hli : lookupField fs "line_items" = some (.arr ls)) (hne : ls ≠ [])
    (hc : lookupField fs "currency" = some c)
    (hp : lookupField fs "payment" = some p)
    (hdc : dc ≠ []) :
    build_update_payload cid (.obj fs) none (some dc) =
      .ok ⟨cid, some (.arr ls), c, p, some dc⟩ := by
  have hlsne : ls.isEmpty = false := by
    cases ls with
    | nil => exact absurd rfl hne
    | cons a t => rfl
  have hdcne : dc.isEmpty = false := by
    cases dc with
    | nil => exact absurd rfl hdc
    | cons a t => rfl
  simp [build_update_payload, pyGet, hli, hc, hp, Json.truthy, hlsne,
    discountsField, hdcne, exc_bind_ok, exc_pure_eq]

/-- Concrete evaluation for C1: a snapshot with one line item, EUR and a
payment block is carried into the payload unchanged when only the code
`"10OFF"` is supplied. -/
theorem update_merge_preserves_unsupplied_fields_witness :
    build_update_payload "c1"
        (.obj [("line_items", .arr [.num 1]), ("currency", .str "EUR"),
               ("payment", .str "P")]) none (some ["10OFF"]) =
      .ok ⟨"c1", some (.arr [.num 1]), .str "EUR", .str "P", some ["10OFF"]⟩ :=
  update_merge_preserves_unsupplied_fields "c1" _ [.num 1] (.str "EUR") (.str "P")
    ["10OFF"] rfl (List.cons_ne_nil _ _) rfl rfl (List.cons_ne_nil _ _)

/-- C4: when the current-state GET of `update_checkout` fails in any way,
the update proceeds from the empty snapshot: the payload omits line items
(none being supplied by the caller), defaults the currency to USD and the
payment block to empty instruments and handlers, and the final result is
whatever the PUT phase produces — the fetch error is not surfaced. -/
theorem update_fetch_failure_proceeds_with_defaults
    (cid : String) (dc : Option (List String)) (fetch : HttpOutcome)
    (put : UpdatePayload → HttpOutcome)
    (hfail : ∀ j, fetch ≠ .success j) :
    build_update_payload cid (update_snapshot fetch) none dc =
      .ok ⟨cid, none, .str "USD", paymentDefault, discountsField dc⟩
    ∧ update_checkout_run cid none dc fetch put =
      put_phase put ⟨cid, none, .str "USD", paymentDefault, discountsField dc⟩ := by
  have hsnap : update_snapshot fetch = .obj [] := by
    cases fetch with
    | success j => exact absurd rfl (hfail j)
    | connectError m => rfl
    | statusError s b => rfl
    | parseError m => rfl
  constructor
  · rw [hsnap]
    rfl
  · unfold update_checkout_run
    rw [hsnap]
    rfl

/-- Concrete evaluation for C4: a connection failure on the fetch, followed
by a PUT the server answers with a decodable session, still updates. -/
theorem update_fetch_failure_proceeds_with_defaults_witness :
    build_update_payload "c1" (update_snapshot (.connectError "down")) none
        (some ["10OFF"]) =
      .ok ⟨"c1", none, .str "USD", paymentDefault, some ["10OFF"]⟩
    ∧ update_checkout_run "c1" none (some ["10OFF"]) (.connectError "down")
        (fun _ => .success (.obj [("id", .str "s1"), ("status", .str "open")])) =
      put_phase (fun _ => .success (.obj [("id", .str "s1"), ("status", .str "open")]))
        ⟨"c1", none, .str "USD", paymentDefault, some ["10OFF"]⟩ :=
  update_fetch_failure_proceeds_with_defaults "c1" (some ["10OFF"])
    (.connectError "down") _ (fun _ h => HttpOutcome.noConfusion h)

/-- C8: when the merchant answers the merged update PUT with a 404, the
update fails with the client's HTTP-error kind, whose message carries the
status 404 and the original response body. -/
theorem update_404_yields_http_error
    (cid : String) (li : Option (List Json)) (dc : Option (List String))
    (fetch : HttpOutcome) (body : String) (put : UpdatePayload → HttpOutcome)
    (p₀ : UpdatePayload)
    (hbuild : build_update_payload cid (update_snapshot fetch) li dc = .ok p₀)
    (hput : put p₀ = .statusError 404 body) :
    update_checkout_run cid li dc fetch put =
      .clientError ("HTTP error from merchant: " ++ toString 404 ++ " - " ++ body) := by
  have h1 : update_checkout_run cid li dc fetch put = put_phase put p₀ := by
    unfold update_checkout_run
    rw [hbuild]
  rw [h1]
  unfold put_phase
  rw [hput]

/-- Concrete evaluation for C8: a 404 with body preserved in the message. -/
theorem update_404_yields_http_error_witness :
    update_checkout_run "bad-id" none (some ["10OFF"]) (.success (.obj []))
        (fun _ => .statusError 404 "Checkout not found") =
      .clientError ("HTTP error from merchant: " ++ toString 404 ++ " - " ++
        "Checkout not found") :=
  update_404_yields_http_error "bad-id" none (some ["10OFF"]) (.success (.obj []))
    "Checkout not found" _ ⟨"bad-id", none, .str "USD", paymentDefault, some ["10OFF"]⟩
    rfl rfl

/-- C7 fails on the code: the discovery GET is sent with no headers at all
(ucp_client.py line 49 calls `client.get(url)` bare), so not every request
carries the UCP-Agent, request-signature and request-id headers. -/
theorem discovery_get_has_no_headers_cex :
    ¬ (∀ r ∈ client_requests "idem-1" "req-1",
        (headerLookup r.headers "UCP-Agent").isSome
        ∧ (headerLookup r.headers "request-signature").isSome
        ∧ (headerLookup r.headers "request-id").isSome) := by
  intro h
  have hd := (h discover_request (by simp [client_requests])).1
  simp [discover_request, headerLookup] at hd

/-- C7 amended: every HTTP request the client sends except the discovery
GET carries the UCP-Agent, request-signature and request-id headers, and
every mutating request (POST/PUT) additionally carries the idempotency-key
generated freshly for that attempt (distinct draws giving distinct keys);
the discovery GET carries no headers. -/
theorem client_request_headers (idem reqid : String) :
    (∀ r ∈ [create_checkout_request idem reqid, complete_checkout_request idem reqid,
            get_checkout_request reqid, raw_update_request idem reqid,
            update_checkout_put_request idem reqid],
      headerLookup r.headers "UCP-Agent" = some agentProfile
      ∧ headerLookup r.headers "request-signature" = some "test"
      ∧ headerLookup r.headers "request-id" = some reqid)
    ∧ (∀ r ∈ [create_checkout_request idem reqid, complete_checkout_request idem reqid,
              raw_update_request idem reqid, update_checkout_put_request idem reqid],
      (r.method = "POST" ∨ r.method = "PUT")
      ∧ headerLookup r.headers "idempotency-key" = some idem)
    ∧ discover_request.headers = []
    ∧ (∀ idem' reqid' : String, idem ≠ idem' →
        headerLookup (create_checkout_request idem reqid).headers "idempotency-key" ≠
        headerLookup (create_checkout_request idem' reqid').headers "idempotency-key") := by
  refine ⟨?_, ?_, rfl, ?_⟩
  · intro r hr
    simp only [List.mem_cons, List.mem_singleton] at hr
    rcases hr with rfl | rfl | rfl | rfl | rfl | h
    · exact ⟨rfl, rfl, rfl⟩
    · exact ⟨rfl, rfl, rfl⟩
    · exact ⟨rfl, rfl, rfl⟩
    · exact ⟨rfl, rfl, rfl⟩
    · exact ⟨rfl, rfl, rfl⟩
    · exact absurd h (List.not_mem_nil r)
  · intro r hr
    simp only [List.mem_cons, List.mem_singleton] at hr
    rcases hr with rfl | rfl | rfl | rfl | h
    · exact ⟨Or.inl rfl, rfl⟩
    · exact ⟨Or.inl rfl, rfl⟩
    · exact ⟨Or.inr rfl, rfl⟩
    · exact ⟨Or.inr rfl, rfl⟩
    · exact absurd h (List.not_mem_nil r)
  · intro idem' reqid' hne
    simp only [create_checkout_request, headerLookup]
    simp [hne]

/-- Concrete evaluation for the amended C7: the creation POST carries the
three protocol headers plus the idempotency key, and two attempts with
distinct draws get distinct keys. -/
theorem client_request_headers_witness :
    headerLookup (create_checkout_request "i1" "r1").headers "UCP-Agent" =
      some agentProfile
    ∧ headerLookup (create_checkout_request "i1" "r1").headers "idempotency-key" ≠
      headerLookup (create_checkout_request "i2" "r2").headers "idempotency-key" :=
  ⟨((client_request_headers "i1" "r1").1 _ (by simp)).1,
   (client_request_headers "i1" "r1").2.2.2 "i2" "r2" (by decide)⟩

/-- C2: in a full three-phase negotiation, phase 2 selects the first
offered method's first destination id and phase 3 the first group's first
option id, and each phase's PUT body carries the `line_items` and `payment`
returned by the immediately previous phase's response (`li1`/`pay1` from
the phase-1 response, `li2`/`pay2` from the phase-2 response), not the
pre-negotiation snapshot's `li0`/`pay0`. -/
theorem fulfillment_negotiation_spec
    (cid : String) (current : Json) (resp : Nat → Json)
    {li0 cur0 pay0 ful1 m1 : Json} {ms1 : List Json} {d0 : Json} {ds : List Json}
    {destId li1 pay1 ful2 m2 : Json} {ms2 : List Json} {g0 : Json} {gs : List Json}
    {o0 : Json} {os : List Json} {optId li2 pay2 : Json}
    (hli0 : pyIndex current "line_items" = .ok li0)
    (hcur0 : pyIndex current "currency" = .ok cur0)
    (hpay0 : pyIndex current "payment" = .ok pay0)
    (hful1 : pyGet (resp 0) "fulfillment" (.obj []) = .ok ful1)
    (hm1 : pyGet ful1 "methods" (.arr []) = .ok (.arr (m1 :: ms1)))
    (hd : pyGet m1 "destinations" (.arr []) = .ok (.arr (d0 :: ds)))
    (hdid : pyIndex d0 "id" = .ok destId)
    (hli1 : pyIndex (resp 0) "line_items" = .ok li1)
    (hpay1 : pyIndex (resp 0) "payment" = .ok pay1)
    (hful2 : pyGet (resp 1) "fulfillment" (.obj []) = .ok ful2)
    (hm2 : pyGet ful2 "methods" (.arr []) = .ok (.arr (m2 :: ms2)))
    (hg : pyGet m2 "groups" (.arr []) = .ok (.arr (g0 :: gs)))
    (hopt : pyGet g0 "options" .null = .ok (.arr (o0 :: os)))
    (hoptIdx : pyIndex g0 "options" = .ok (.arr (o0 :: os)))
    (hoid : pyIndex o0 "id" = .ok optId)
    (hli2 : pyIndex (resp 1) "line_items" = .ok li2)
    (hpay2 : pyIndex (resp 1) "payment" = .ok pay2) :
    setup_fulfillment cid current resp =
      .ok ([⟨cid, li0, cur0, pay0, [⟨"shipping", none, none⟩]⟩,
            ⟨cid, li1, cur0, pay1, [⟨"shipping", some destId, none⟩]⟩,
            ⟨cid, li2, cur0, pay2, [⟨"shipping", some destId, some [⟨optId⟩]⟩]⟩],
           resp 2) := by
  simp only [setup_fulfillment, hli0, hcur0, hpay0, hful1, hm1, hd, hdid, hli1,
    hpay1, hful2, hm2, hg, hopt, hoptIdx, hoid, hli2, hpay2, exc_bind_ok,
    exc_pure_eq, pyIdx0, truthy_arr_cons, Bool.not_false, Bool.not_true]
  simp

/-- Pre-negotiation snapshot used to evaluate the negotiation claims. -/
def fulfillCurEx : Json :=
  .obj [("line_items", .str "L0"), ("currency", .str "USD"), ("payment", .str "P0")]

/-- Server responses for the full-negotiation evaluation: the phase-1
response offers one destination, the phase-2 response one option group
with one option, and the phase-3 response is the final session. -/
def fulfillRespEx : Nat → Json := fun n =>
  if n = 0 then
    .obj [("line_items", .str "L1"), ("payment", .str "P1"),
          ("fulfillment", .obj [("methods",
            .arr [.obj [("destinations", .arr [.obj [("id", .str "D1")]])]])])]
  else if n = 1 then
    .obj [("line_items", .str "L2"), ("payment", .str "P2"),
          ("fulfillment", .obj [("methods",
            .arr [.obj [("groups", .arr [.obj [("options",
              .arr [.obj [("id", .str "O1")]])]])]])])]
  else .obj [("id", .str "final")]

/-- Concrete evaluation for C2: a full negotiation selects destination D1
and option O1 and forwards each previous response's line items/payment. -/
theorem fulfillment_negotiation_spec_witness :
    setup_fulfillment "c9" fulfillCurEx fulfillRespEx =
      .ok ([⟨"c9", .str "L0", .str "USD", .str "P0", [⟨"shipping", none, none⟩]⟩,
            ⟨"c9", .str "L1", .str "USD", .str "P1",
              [⟨"shipping", some (.str "D1"), none⟩]⟩,
            ⟨"c9", .str "L2", .str "USD", .str "P2",
              [⟨"shipping", some (.str "D1"), some [⟨.str "O1"⟩]⟩]⟩],
           .obj [("id", .str "final")]) :=
  fulfillment_negotiation_spec "c9" fulfillCurEx fulfillRespEx rfl rfl rfl rfl rfl
    rfl rfl rfl rfl rfl rfl rfl rfl rfl rfl rfl rfl

/-- C3: whenever a negotiation phase's response offers zero methods, zero
destinations, zero option groups, or a first group with no truthy options,
`setup_fulfillment` terminates without an error, returning the last
response obtained so far. -/
theorem fulfillment_early_termination_spec :
    (∀ (cid : String) (current : Json) (resp : Nat → Json) (li0 cur0 pay0 ful1 mv : Json),
      pyIndex current "line_items" = .ok li0 →
      pyIndex current "currency" = .ok cur0 →
      pyIndex current "payment" = .ok pay0 →
      pyGet (resp 0) "fulfillment" (.obj []) = .ok ful1 →
      pyGet ful1 "methods" (.arr []) = .ok mv →
      mv.truthy = false →
      setup_fulfillment cid current resp =
        .ok ([⟨cid, li0, cur0, pay0, [⟨"shipping", none, none⟩]⟩], resp 0))
    ∧ (∀ (cid : String) (current : Json) (resp : Nat → Json)
          (li0 cur0 pay0 ful1 m1 : Json) (ms1 : List Json) (dv : Json),
      pyIndex current "line_items" = .ok li0 →
      pyIndex current "currency" = .ok cur0 →
      pyIndex current "payment" = .ok pay0 →
      pyGet (resp 0) "fulfillment" (.obj []) = .ok ful1 →
      pyGet ful1 "methods" (.arr []) = .ok (.arr (m1 :: ms1)) →
      pyGet m1 "destinations" (.arr []) = .ok dv →
      dv.truthy = false →
      setup_fulfillment cid current resp =
        .ok ([⟨cid, li0, cur0, pay0, [⟨"shipping", none, none⟩]⟩], resp 0))
    ∧ (∀ (cid : String) (current : Json) (resp : Nat → Json)
          (li0 cur0 pay0 ful1 m1 : Json) (ms1 : List Json) (d0 : Json)
          (ds : List Json) (destId li1 pay1 ful2 mv2 : Json),
      pyIndex current "line_items" = .ok li0 →
      pyIndex current "currency" = .ok cur0 →
      pyIndex current "payment" = .ok pay0 →
      pyGet (resp 0) "fulfillment" (.obj []) = .ok ful1 →
      pyGet ful1 "methods" (.arr []) = .ok (.arr (m1 :: ms1)) →
      pyGet m1 "destinations" (.arr []) = .ok (.arr (d0 :: ds)) →
      pyIndex d0 "id" = .ok destId →
      pyIndex (resp 0) "line_items" = .ok li1 →
      pyIndex (resp 0) "payment" = .ok pay1 →
      pyGet (resp 1) "fulfillment" (.obj []) = .ok ful2 →
      pyGet ful2 "methods" (.arr []) = .ok mv2 →
      mv2.truthy = false →
      setup_fulfillment cid current resp =
        .ok ([⟨cid, li0, cur0, pay0, [⟨"shipping", none, none⟩]⟩,
              ⟨cid, li1, cur0, pay1, [⟨"shipping", some destId, none⟩]⟩],
             resp 1))
    ∧ (∀ (cid : String) (current : Json) (resp : Nat → Json)
          (li0 cur0 pay0 ful1 m1 : Json) (ms1 : List Json) (d0 : Json)
          (ds : List Json) (destId li1 pay1 ful2 m2 : Json) (ms2 : List Json)
          (gv : Json),
      pyIndex current "line_items" = .ok li0 →
      pyIndex current "currency" = .ok cur0 →
      pyIndex current "payment" = .ok pay0 →
      pyGet (resp 0) "fulfillment" (.obj []) = .ok ful1 →
      pyGet ful1 "methods" (.arr []) = .ok (.arr (m1 :: ms1)) →
      pyGet m1 "destinations" (.arr []) = .ok (.arr (d0 :: ds)) →
      pyIndex d0 "id" = .ok destId →
      pyIndex (resp 0) "line_items" = .ok li1 →
      pyIndex (resp 0) "payment" = .ok pay1 →
      pyGet (resp 1) "fulfillment" (.obj []) = .ok ful2 →
      pyGet ful2 "methods" (.arr []) = .ok (.arr (m2 :: ms2)) →
      pyGet m2 "groups" (.arr []) = .ok gv →
      gv.truthy = false →
      setup_fulfillment cid current resp =
        .ok ([⟨cid, li0, cur0, pay0, [⟨"shipping", none, none⟩]⟩,
              ⟨cid, li1, cur0, pay1, [⟨"shipping", some destId, none⟩]⟩],
             resp 1))
    ∧ (∀ (cid : String) (current : Json) (resp : Nat → Json)
          (li0 cur0 pay0 ful1 m1 : Json) (ms1 : List Json) (d0 : Json)
          (ds : List Json) (destId li1 pay1 ful2 m2 : Json) (ms2 : List Json)
          (g0 : Json) (gs : List Json) (ov : Json),
      pyIndex current "line_items" = .ok li0 →
      pyIndex current "currency" = .ok cur0 →
      pyIndex current "payment" = .ok pay0 →
      pyGet (resp 0) "fulfillment" (.obj []) = .ok ful1 →
      pyGet ful1 "methods" (.arr []) = .ok (.arr (m1 :: ms1)) →
      pyGet m1 "destinations" (.arr []) = .ok (.arr (d0 :: ds)) →
      pyIndex d0 "id" = .ok destId →
      pyIndex (resp 0) "line_items" = .ok li1 →
      pyIndex (resp 0) "payment" = .ok pay1 →
      pyGet (resp 1) "fulfillment" (.obj []) = .ok ful2 →
      pyGet ful2 "methods" (.arr []) = .ok (.arr (m2 :: ms2)) →
      pyGet m2 "groups" (.arr []) = .ok (.arr (g0 :: gs)) →
      pyGet g0 "options" .null = .ok ov →
      ov.truthy = false →
      setup_fulfillment cid current resp =
        .ok ([⟨cid, li0, cur0, pay0, [⟨"shipping", none, none⟩]⟩,
              ⟨cid, li1, cur0, pay1, [⟨"shipping", some destId, none⟩]⟩],
             resp 1)) := by
  refine ⟨?_, ?_, ?_, ?_, ?_⟩
  · intro cid current resp li0 cur0 pay0 ful1 mv hli0 hcur0 hpay0 hful1 hm1 hmf
    simp only [setup_fulfillment, hli0, hcur0, hpay0, hful1, hm1, hmf,
      exc_bind_ok, exc_pure_eq, Bool.not_false]
    simp
  · intro cid current resp li0 cur0 pay0 ful1 m1 ms1 dv hli0 hcur0 hpay0 hful1
      hm1 hd hdf
    simp only [setup_fulfillment, hli0, hcur0, hpay0, hful1, hm1, hd, hdf,
      exc_bind_ok, exc_pure_eq, pyIdx0, truthy_arr_cons, Bool.not_false,
      Bool.not_true]
    simp
  · intro cid current resp li0 cur0 pay0 ful1 m1 ms1 d0 ds destId li1 pay1 ful2
      mv2 hli0 hcur0 hpay0 hful1 hm1 hd hdid hli1 hpay1 hful2 hm2 hmf2
    simp only [setup_fulfillment, hli0, hcur0, hpay0, hful1, hm1, hd, hdid,
      hli1, hpay1, hful2, hm2, hmf2, exc_bind_ok, exc_pure_eq, pyIdx0,
      truthy_arr_cons, Bool.not_false, Bool.not_true]
    simp
  · intro cid current resp li0 cur0 pay0 ful1 m1 ms1 d0 ds destId li1 pay1 ful2
      m2 ms2 gv hli0 hcur0 hpay0 hful1 hm1 hd hdid hli1 hpay1 hful2 hm2 hg hgf
    simp only [setup_fulfillment, hli0, hcur0, hpay0, hful1, hm1, hd, hdid,
      hli1, hpay1, hful2, hm2, hg, hgf, exc_bind_ok, exc_pure_eq, pyIdx0,
      truthy_arr_cons, Bool.not_false, Bool.not_true]
    simp
  · intro cid current resp li0 cur0 pay0 ful1 m1 ms1 d0 ds destId li1 pay1 ful2
      m2 ms2 g0 gs ov hli0 hcur0 hpay0 hful1 hm1 hd hdid hli1 hpay1 hful2 hm2
      hg hov hof
    simp only [setup_fulfillment, hli0, hcur0, hpay0, hful1, hm1, hd, hdid,
      hli1, hpay1, hful2, hm2, hg, hov, hof, exc_bind_ok, exc_pure_eq, pyIdx0,
      truthy_arr_cons, Bool.not_false, Bool.not_true]
    simp

/-- Pre-negotiation snapshot for the early-termination evaluation. -/
def earlyCurEx : Json :=
  .obj [("line_items", .str "L0"), ("currency", .str "USD"), ("payment", .str "P0")]

/-- Server responses for the early-termination evaluation: the phase-1
response offers a method with an empty destination list. -/
def earlyRespEx : Nat → Json := fun _ =>
  .obj [("fulfillment", .obj [("methods",
    .arr [.obj [("destinations", .arr [])]])])]

/-- Concrete evaluation for C3: a phase-1 response offering zero
destinations makes the negotiation return that response without error. -/
theorem fulfillment_early_termination_spec_witness :
    setup_fulfillment "c9" earlyCurEx earlyRespEx =
      .ok ([⟨"c9", .str "L0", .str "USD", .str "P0", [⟨"shipping", none, none⟩]⟩],
           earlyRespEx 0) :=
  fulfillment_early_termination_spec.2.1 "c9" earlyCurEx earlyRespEx
    (.str "L0") (.str "USD") (.str "P0") _ _ [] (.arr []) rfl rfl rfl rfl rfl
    rfl rfl
